import Mathlib

/-!
# Verification of the cnosolar configuration assembly and CEN statistic

Shallow embedding of the configuration-collection callbacks of
`cnosolar/gui_config.py` (`str_to_list`, `check_inverter`, `check_module`,
`check_mount`, `check_econfig`, `sys_config`) and of the capacity statistic
`get_cen` of `Cuadernos_Interactivos/scripts/cno_cen.py`.

Conventions of the embedding:
* Python/NumPy floating-point values are modelled as rationals (`ℚ`); all
  values exercised by the properties below are exact in this range.
* Fallible Python code (`float(...)` / `int(...)` / `json.loads` parse errors,
  `np.max` on an empty array, `np.percentile` with an out-of-range percentile,
  an `UnboundLocalError` from a branch that assigns no value) is modelled with
  `Option`, `none` standing for the raised exception.
* NumPy *array* division by a zero scalar does not raise: it produces
  non-finite entries (`0./0. = nan`) together with a `RuntimeWarning`.  A
  non-finite entry is modelled as `none` inside the element list.
-/

namespace CnoSolar

/-! ## String parsing helpers

`gui_config.py` receives the per-subarray fields as text-widget strings and
converts them with `float(...)`, `int(...)` and
`json.loads('[' + string + ']')` (the latter via `str_to_list`).  The parsers
below model these conversions for the numeric content they receive: optional
surrounding blanks, an optional sign, a decimal integer part and an optional
fractional part. -/

/-- Numeric value of a list of decimal digit characters. -/
def digitsToNat (cs : List Char) : ℕ :=
  cs.foldl (fun a c => 10 * a + (c.toNat - 48)) 0

/-- Strip leading and trailing blanks (Python `float`/`int`/JSON all ignore
surrounding whitespace). -/
def trimBlanks (cs : List Char) : List Char :=
  ((cs.dropWhile (· = ' ')).reverse.dropWhile (· = ' ')).reverse

/-- Unsigned decimal number: digits, optionally followed by `.` and digits. -/
def parseUnsigned (cs : List Char) : Option ℚ :=
  let ip := cs.takeWhile Char.isDigit
  let rest := cs.dropWhile Char.isDigit
  if ip = [] then none
  else
    match rest with
    | [] => some (digitsToNat ip : ℚ)
    | '.' :: fp =>
        if fp ≠ [] ∧ fp.all Char.isDigit then
          some ((digitsToNat ip : ℚ) + (digitsToNat fp : ℚ) / (10 : ℚ) ^ fp.length)
        else none
    | _ => none

/-- Models Python `float` (and a JSON number) on decimal literal content. -/
def parseNumChars (cs : List Char) : Option ℚ :=
  match trimBlanks cs with
  | '-' :: rest => (parseUnsigned rest).map Neg.neg
  | '+' :: rest => parseUnsigned rest
  | cs' => parseUnsigned cs'

/-- Models Python `float(s)` on decimal literals. -/
def parseNum (s : String) : Option ℚ :=
  parseNumChars s.data

/-- Models Python `int(s)`: an optionally signed run of decimal digits. -/
def parseIntStr (s : String) : Option ℤ :=
  match trimBlanks s.data with
  | [] => none
  | '-' :: rest =>
      if rest ≠ [] ∧ rest.all Char.isDigit then some (-(digitsToNat rest : ℤ)) else none
  | '+' :: rest =>
      if rest ≠ [] ∧ rest.all Char.isDigit then some ((digitsToNat rest : ℤ)) else none
  | cs => if cs.all Char.isDigit then some ((digitsToNat cs : ℤ)) else none

/-- Split a character list at every comma (the separators of the flat JSON
array `'[' + string + ']'` that `str_to_list` builds). -/
def splitOnComma : List Char → List Char → List (List Char)
  | [], acc => [acc.reverse]
  | c :: rest, acc =>
      if c = ',' then acc.reverse :: splitOnComma rest [] else splitOnComma rest (c :: acc)

/-- The traversal `mapOpt f l`: `some` of the mapped list when `f` succeeds
on every element, `none` otherwise (the `Option` traversal, written out for easy reduction). -/
def mapOpt (f : α → Option β) : List α → Option (List β)
  | [] => some []
  | a :: as =>
      match f a, mapOpt f as with
      | some b, some bs => some (b :: bs)
      | _, _ => none

/-- Embedding of `gui_config.str_to_list`:
`json.loads('[' + string + ']')` applied to a comma-separated list of decimal
numbers (`none` models the `JSONDecodeError` on malformed content). -/
def str_to_list (s : String) : Option (List ℚ) :=
  mapOpt parseNumChars (splitOnComma s.data [])

/-! ## NumPy helpers used by `cno_cen.get_cen` -/

/-- Integer core of `np.round`: round half to even. -/
def roundHalfEven (x : ℚ) : ℤ :=
  if x - (⌊x⌋ : ℚ) < 1 / 2 then ⌊x⌋
  else if 1 / 2 < x - (⌊x⌋ : ℚ) then ⌊x⌋ + 1
  else if ⌊x⌋ % 2 = 0 then ⌊x⌋ else ⌊x⌋ + 1

/-- Models `np.round(x, d)` (round half to even at `d` decimal places). -/
def npRound (x : ℚ) (d : ℤ) : ℚ :=
  (roundHalfEven (x * (10 : ℚ) ^ d) : ℚ) / (10 : ℚ) ^ d

/-- Models `np.sort` (ascending). -/
def npSort (l : List ℚ) : List ℚ :=
  l.insertionSort (· ≤ ·)

/-- Models `np.max`: `none` on the empty array (NumPy raises a `ValueError`
on a zero-size reduction). -/
def npMax : List ℚ → Option ℚ
  | [] => none
  | a :: as => some (as.foldl max a)

/-- Models `np.percentile(a, q)` with NumPy's default linear interpolation:
with `xs` the ascending sort of `a`, `h = (n - 1) * q / 100`, the result is
`xs[⌊h⌋] + (h - ⌊h⌋) * (xs[⌊h⌋ + 1] - xs[⌊h⌋])` (the second index is only
reached with a non-zero weight when `⌊h⌋ + 1 < n`). -/
def percentileLinear (ac : List ℚ) (q : ℚ) : ℚ :=
  (npSort ac).getD (⌊((ac.length : ℚ) - 1) * q / 100⌋).toNat 0
    + (((ac.length : ℚ) - 1) * q / 100 - (⌊((ac.length : ℚ) - 1) * q / 100⌋ : ℚ))
      * ((npSort ac).getD ((⌊((ac.length : ℚ) - 1) * q / 100⌋).toNat + 1) 0
          - (npSort ac).getD (⌊((ac.length : ℚ) - 1) * q / 100⌋).toNat 0)

/-- The `'MW'` entry of the `units` table of `cno_cen.py`
(`units = {'kW': 1000, 'MW': 1000000}`). -/
def units_MW : ℚ := 1000000

/-- The intermediate array `p = 1. * np.arange(len(ac)) / (len(ac) - 1)` of
`get_cen`.  The division is NumPy array-by-scalar division: dividing by the
zero scalar (`len(ac) = 1`) yields a non-finite entry (`0./0. = nan`, a
`RuntimeWarning`, not an exception), modelled as `none`. -/
def cenProbs (ac : List ℚ) : List (Option ℚ) :=
  (List.range ac.length).map fun (i : ℕ) =>
    if ((ac.length : ℚ) - 1) = 0 then none
    else some ((i : ℚ) / ((ac.length : ℚ) - 1))

/-- Embedding of `cno_cen.get_cen` (the returned pair `(cen_per, cen_pmax)`;
the sorted array `pac` and the probability array `p` — `npSort` and
`cenProbs` — only feed the plot).  `none` models the exceptions raised by
`np.max` on an empty input and by `np.percentile` on a percentile outside
`[0, 100]`. -/
def get_cen (ac : List ℚ) (perc : ℚ) (decimals : ℤ) : Option (ℚ × ℚ) :=
  if perc < 0 ∨ 100 < perc then none
  else
    (npMax ac).map fun pacMax =>
      (npRound (percentileLinear ac perc / units_MW) decimals,
       npRound (pacMax / units_MW) decimals)

/-! ## `gui_config.py` — data model

Python dict values in the normalized module record are either numbers,
strings, or `None` (the technology tag of an unknown technology string). -/

/-- A Python dict value appearing in the normalized module record. -/
inductive PVal where
  | num (q : ℚ)
  | str (s : String)
  | null
deriving DecidableEq

/-- Conversion of an optional string (the normalized technology tag) to a
dict value. -/
def PVal.ofOptStr : Option String → PVal
  | some s => .str s
  | none => .null

/-! ### `check_inverter`

The four reachable source selections of `check_inverter`: the repository
branch (`inverter_btn.value == 'Repositorio'`, SAM record, 9 Sandia
coefficients), the PVsyst `.OND` branch (`'PVsyst'`, 2 PVWatts fields), and
the two manual branches (`'Manual'` with `dropdown_manual.value` equal to
`'SNL PVlib'` or `'NREL PVWatts'`).  Each raw-record structure carries
exactly the keys the branch reads from its source dict. -/

/-- The 9 coefficients read from a SAM / manual Sandia inverter record. -/
structure SandiaInvRecord where
  Paco : ℚ
  Pdco : ℚ
  Vdco : ℚ
  Pso : ℚ
  C0 : ℚ
  C1 : ℚ
  C2 : ℚ
  C3 : ℚ
  Pnt : ℚ
deriving DecidableEq

/-- The 2 fields read from a PVsyst-derived / manual PVWatts record. -/
structure PVWattsInvRecord where
  Pdco : ℚ
  eta_inv_nom : ℚ
deriving DecidableEq

/-- Inverter source selection (widget state) together with the raw record
the selected collaborator returns. -/
inductive InverterSelection where
  | repo (db name : String) (inv : SandiaInvRecord)
  | pvsystFile (inv : PVWattsInvRecord)
  | manualSNL (inv : SandiaInvRecord)
  | manualPVWatts (inv : PVWattsInvRecord)
deriving DecidableEq

/-- The list `[inverters_database, inverter_name, inverter, ac_model]`
returned by `check_inverter`. -/
structure InverterStatus where
  databases : Option String
  name : Option String
  inverter : List (String × ℚ)
  ac_model : String
deriving DecidableEq

/-- Embedding of `gui_config.check_inverter`. -/
def check_inverter : InverterSelection → InverterStatus
  | .repo db name inv =>
      ⟨some db, some name,
       [("Paco", inv.Paco), ("Pdco", inv.Pdco), ("Vdco", inv.Vdco),
        ("Pso", inv.Pso), ("C0", inv.C0), ("C1", inv.C1), ("C2", inv.C2),
        ("C3", inv.C3), ("Pnt", inv.Pnt)], "sandia"⟩
  | .pvsystFile inv =>
      ⟨none, none, [("Pdco", inv.Pdco), ("eta_inv_nom", inv.eta_inv_nom)], "pvwatts"⟩
  | .manualSNL inv =>
      ⟨none, none,
       [("Paco", inv.Paco), ("Pdco", inv.Pdco), ("Vdco", inv.Vdco),
        ("Pso", inv.Pso), ("C0", inv.C0), ("C1", inv.C1), ("C2", inv.C2),
        ("C3", inv.C3), ("Pnt", inv.Pnt)], "sandia"⟩
  | .manualPVWatts inv =>
      ⟨none, none, [("Pdco", inv.Pdco), ("eta_inv_nom", inv.eta_inv_nom)], "pvwatts"⟩

/-! ### `check_module` -/

/-- The fields read from a CEC-style module record (`CECMod` repository,
PVFree `cecmodule`, and the manual form, which offers the same 11 inputs). -/
structure CECModRecord where
  T_NOCT : ℚ
  Technology : String
  N_s : ℚ
  I_sc_ref : ℚ
  V_oc_ref : ℚ
  I_mp_ref : ℚ
  V_mp_ref : ℚ
  alpha_sc : ℚ
  beta_oc : ℚ
  gamma_r : ℚ
  STC : ℚ
deriving DecidableEq

/-- The fields read from a Sandia-style module record (`SandiaMod`
repository and PVFree `pvmodule`). -/
structure SandiaModRecord where
  Material : String
  Cells_in_Series : ℚ
  Isco : ℚ
  Voco : ℚ
  Impo : ℚ
  Vmpo : ℚ
  Aisc : ℚ
  Bvoco : ℚ
deriving DecidableEq

/-- The fields read from a PVsyst `.PAN`-derived module record.  (The code
also computes `module['a_ref']` from `Gamma`/`NCelS` into the raw dict, but
immediately rebuilds `module` without it, so `a_ref` never reaches the
output.) -/
structure PVsystModRecord where
  TRef : ℚ
  Technol : String
  NCelS : ℚ
  Isc : ℚ
  Voc : ℚ
  Imp : ℚ
  Vmp : ℚ
  mIsc_percent : ℚ
  mVoc_percent : ℚ
  mPmpp : ℚ
  Pmpp : ℚ
deriving DecidableEq

/-- Module source selection (widget state plus the raw collaborator
record).  `pvfreeCec`/`pvfreePv` carry the `Name` key the PVFree branch
reads for `modules_name`. -/
inductive ModuleSelection where
  | repoCEC (name : String) (m : CECModRecord)
  | repoSandia (name : String) (m : SandiaModRecord)
  | pvfreeCec (modName : String) (m : CECModRecord)
  | pvfreePv (modName : String) (m : SandiaModRecord)
  | pvsystFile (m : PVsystModRecord)
  | manual (m : CECModRecord)
deriving DecidableEq

/-- The normalized module dict built by each branch of `check_module`,
before the technology tag is normalized (insertion order preserved). -/
def rawModuleRecord : ModuleSelection → List (String × PVal)
  | .repoCEC _ m =>
      [("T_NOCT", .num m.T_NOCT), ("Technology", .str m.Technology),
       ("N_s", .num m.N_s), ("I_sc_ref", .num m.I_sc_ref),
       ("V_oc_ref", .num m.V_oc_ref), ("I_mp_ref", .num m.I_mp_ref),
       ("V_mp_ref", .num m.V_mp_ref),
       ("alpha_sc", .num (npRound (m.alpha_sc * 100 / m.I_sc_ref) 6)),
       ("beta_oc", .num (npRound (m.beta_oc * 100 / m.V_oc_ref) 6)),
       ("gamma_r", .num m.gamma_r), ("STC", .num m.STC)]
  | .repoSandia _ m =>
      [("T_NOCT", .num 45), ("Technology", .str m.Material),
       ("N_s", .num m.Cells_in_Series), ("I_sc_ref", .num m.Isco),
       ("V_oc_ref", .num m.Voco), ("I_mp_ref", .num m.Impo),
       ("V_mp_ref", .num m.Vmpo),
       ("alpha_sc", .num (npRound (m.Aisc * 100) 6)),
       ("beta_oc", .num (npRound (m.Bvoco * 100 / m.Voco) 6)),
       ("gamma_r", .num 0), ("STC", .num (npRound (m.Impo * m.Vmpo) 2))]
  | .pvfreeCec _ m =>
      [("T_NOCT", .num m.T_NOCT), ("Technology", .str m.Technology),
       ("N_s", .num m.N_s), ("I_sc_ref", .num m.I_sc_ref),
       ("V_oc_ref", .num m.V_oc_ref), ("I_mp_ref", .num m.I_mp_ref),
       ("V_mp_ref", .num m.V_mp_ref), ("alpha_sc", .num m.alpha_sc),
       ("beta_oc", .num m.beta_oc), ("gamma_r", .num m.gamma_r),
       ("STC", .num m.STC)]
  | .pvfreePv _ m =>
      [("T_NOCT", .num 45), ("Technology", .str m.Material),
       ("N_s", .num m.Cells_in_Series), ("I_sc_ref", .num m.Isco),
       ("V_oc_ref", .num m.Voco), ("I_mp_ref", .num m.Impo),
       ("V_mp_ref", .num m.Vmpo),
       ("alpha_sc", .num (npRound (m.Aisc * 100) 6)),
       ("beta_oc", .num (npRound (m.Bvoco * 100 / m.Voco) 6)),
       ("gamma_r", .num 0), ("STC", .num (npRound (m.Impo * m.Vmpo) 2))]
  | .pvsystFile m =>
      [("T_NOCT", .num m.TRef), ("Technology", .str m.Technol),
       ("N_s", .num m.NCelS), ("I_sc_ref", .num m.Isc),
       ("V_oc_ref", .num m.Voc), ("I_mp_ref", .num m.Imp),
       ("V_mp_ref", .num m.Vmp),
       ("alpha_sc", .num (npRound m.mIsc_percent 2)),
       ("beta_oc", .num (npRound m.mVoc_percent 2)),
       ("gamma_r", .num m.mPmpp), ("STC", .num m.Pmpp)]
  | .manual m =>
      [("T_NOCT", .num m.T_NOCT), ("Technology", .str m.Technology),
       ("N_s", .num m.N_s), ("I_sc_ref", .num m.I_sc_ref),
       ("V_oc_ref", .num m.V_oc_ref), ("I_mp_ref", .num m.I_mp_ref),
       ("V_mp_ref", .num m.V_mp_ref), ("alpha_sc", .num m.alpha_sc),
       ("beta_oc", .num m.beta_oc), ("gamma_r", .num m.gamma_r),
       ("STC", .num m.STC)]

/-- The `modules_database` value set by each branch. -/
def moduleDatabase : ModuleSelection → Option String
  | .repoCEC _ _ => some "CECMod"
  | .repoSandia _ _ => some "SandiaMod"
  | .pvfreeCec _ _ => some "PVFree"
  | .pvfreePv _ _ => some "PVFree"
  | .pvsystFile _ => none
  | .manual _ => none

/-- The `modules_name` value set by each branch. -/
def moduleName : ModuleSelection → Option String
  | .repoCEC name _ => some name
  | .repoSandia name _ => some name
  | .pvfreeCec modName _ => some modName
  | .pvfreePv modName _ => some modName
  | .pvsystFile _ => none
  | .manual _ => none

/-- The synonym lists of the technology if/elif chain of `check_module`. -/
def monoSyns : List String :=
  ["Mono-c-Si", "monoSi", "monosi", "c-Si", "xsi", "mtSiMono"]

/-- Synonyms normalized to `'multisi'`. -/
def multiSyns : List String :=
  ["Multi-c-Si", "multiSi", "multisi", "mc-Si", "EFG mc-Si"]

/-- Synonyms normalized to `'polisi'`. -/
def polySyns : List String :=
  ["polySi", "polysi", "mtSiPoly"]

/-- Synonyms normalized to `'cis'`. -/
def cisSyns : List String :=
  ["CIS", "cis"]

/-- Synonyms normalized to `'cigs'`. -/
def cigsSyns : List String :=
  ["CIGS", "cigs"]

/-- Synonyms normalized to `'cdte'`. -/
def cdteSyns : List String :=
  ["CdTe", "cdte", "Thin Film", "GaAs"]

/-- Synonyms normalized to `'asi'`. -/
def asiSyns : List String :=
  ["amorphous", "asi", "a-Si / mono-Si", "2-a-Si", "3-a-Si", "Si-Film", "HIT-Si"]

/-- The 7 canonical technology tags. -/
def canonicalTechs : List String :=
  ["monosi", "multisi", "polisi", "cis", "cigs", "cdte", "asi"]

/-- The technology-normalization if/elif chain of `check_module`
(`t = module['Technology']; if t in [...]: module_tec = ... else: None`). -/
def normTech (t : String) : Option String :=
  if t ∈ monoSyns then some "monosi"
  else if t ∈ multiSyns then some "multisi"
  else if t ∈ polySyns then some "polisi"
  else if t ∈ cisSyns then some "cis"
  else if t ∈ cigsSyns then some "cigs"
  else if t ∈ cdteSyns then some "cdte"
  else if t ∈ asiSyns then some "asi"
  else none

/-- Reads `module['Technology']` back from the freshly built dict (always a
string at this point). -/
def getTechStr (rec : List (String × PVal)) : String :=
  match rec.lookup "Technology" with
  | some (.str s) => s
  | _ => ""

/-- Models `module['Technology'] = module_tec`: overwrite the `Technology`
entry. -/
def setTech (rec : List (String × PVal)) (v : PVal) : List (String × PVal) :=
  rec.map fun p => if p.1 = "Technology" then (p.1, v) else p

/-- The bifacial widget inputs read by `check_module`. -/
structure BifacialWidgets where
  enabled : Bool
  bifaciality : ℚ
  row_height : ℚ
  row_width : ℚ
deriving DecidableEq

/-- The list `[modules_database, modules_name, module, bifacial,
bifaciality, row_height, row_width]` returned by `check_module`. -/
structure ModuleStatus where
  databases : Option String
  name : Option String
  module : List (String × PVal)
  bifacial : Bool
  bifaciality : ℚ
  row_height : ℚ
  row_width : ℚ
deriving DecidableEq

/-- Embedding of `gui_config.check_module`. -/
def check_module (sel : ModuleSelection) (b : BifacialWidgets) : ModuleStatus :=
  let raw := rawModuleRecord sel
  let module_tec := normTech (getTechStr raw)
  { databases := moduleDatabase sel
    name := moduleName sel
    module := setTech raw (PVal.ofOptStr module_tec)
    bifacial := b.enabled
    bifaciality := if b.enabled = false then 0 else b.bifaciality
    row_height := if b.enabled = false then 0 else b.row_height
    row_width := if b.enabled = false then 0 else b.row_width }

/-! ### `check_mount` and `check_econfig` -/

/-- The widget state read by `check_mount`: the mode toggle
(`tracker_btn.value == 'Seguidor 1-Eje'`) and the text children of
`sysconfig_vbox.children[2]`.  In fixed mode that box holds
`[tilt, azimuth, racking]` (`c0`, `c1`, `c2`); in tracker mode it holds
`[axis_tilt, axis_azimuth, max_angle, racking]` (`c0`–`c3`). -/
structure MountWidgets where
  tracker : Bool
  c0 : String
  c1 : String
  c2 : String
  c3 : String
deriving DecidableEq

/-- The list returned by `check_mount`, in source order:
`[with_tracker, surface_azimuth, surface_tilt, axis_tilt, axis_azimuth,
max_angle, module_type, racking_model]`. -/
structure MountStatus where
  with_tracker : Bool
  surface_azimuth : Option (List ℚ)
  surface_tilt : Option (List ℚ)
  axis_tilt : Option (List ℚ)
  axis_azimuth : Option (List ℚ)
  max_angle : Option (List ℚ)
  module_type : String
  racking_model : String
deriving DecidableEq

/-- The per-subarray list pattern shared by `check_mount` and
`check_econfig`: `[float(v)]` when `num_arrays == 1`, `str_to_list(v)` when
`num_arrays > 1`, and no assignment at all otherwise (the later read then
raises `UnboundLocalError`, modelled by `none`). -/
def perArrayList (k : ℕ) (s : String) : Option (List ℚ) :=
  if k = 1 then (parseNum s).map fun x => [x]
  else if 1 < k then str_to_list s
  else none

/-- Same pattern with Python `int(...)` in the `num_arrays == 1` branch
(`check_econfig`). -/
def perArrayListInt (k : ℕ) (s : String) : Option (List ℚ) :=
  if k = 1 then (parseIntStr s).map fun z => [(z : ℚ)]
  else if 1 < k then str_to_list s
  else none

/-- The racking if/elif chain assigning `module_type` (no `else`: any other
racking string leaves `module_type` unassigned, hence `none`). -/
def moduleTypeOf (racking : String) : Option String :=
  if racking = "open_rack" then some "glass_glass"
  else if racking = "close_mount" then some "glass_glass"
  else if racking = "insulated_back" then some "glass_polymer"
  else none

/-- Embedding of `gui_config.check_mount`. -/
def check_mount (k : ℕ) (w : MountWidgets) : Option MountStatus :=
  if w.tracker = false then
    match perArrayList k w.c0, perArrayList k w.c1, moduleTypeOf w.c2 with
    | some surface_tilt, some surface_azimuth, some module_type =>
        some ⟨false, some surface_azimuth, some surface_tilt,
              none, none, none, module_type, w.c2⟩
    | _, _, _ => none
  else
    match perArrayList k w.c0, perArrayList k w.c1, perArrayList k w.c2,
          moduleTypeOf w.c3 with
    | some axis_tilt, some axis_azimuth, some max_angle, some module_type =>
        some ⟨true, none, none, some axis_tilt, some axis_azimuth,
              some max_angle, module_type, w.c3⟩
    | _, _, _, _ => none

/-- The widget state read by `check_econfig` (`w_mps`, `w_spi`,
`w_numinv.value`). -/
structure EconfigWidgets where
  mps : String
  spi : String
  numinv : ℤ
deriving DecidableEq

/-- The list `[modules_per_string, strings_per_inverter, num_inverters]`
returned by `check_econfig`. -/
structure EconfigStatus where
  modules_per_string : List ℚ
  strings_per_inverter : List ℚ
  num_inverters : ℤ
deriving DecidableEq

/-- Embedding of `gui_config.check_econfig`. -/
def check_econfig (k : ℕ) (w : EconfigWidgets) : Option EconfigStatus :=
  match perArrayListInt k w.mps, perArrayListInt k w.spi with
  | some mps, some spi => some ⟨mps, spi, w.numinv⟩
  | _, _ => none

/-! ### `sys_config` -/

/-- The remaining widget scalars `sys_config` reads directly. -/
structure GlobalWidgets where
  latitude : ℚ
  longitude : ℚ
  tz : String
  altitude : ℚ
  surface_albedo : ℚ
  num_arrays : ℤ
  loss : ℚ
  kpc : ℚ
  kt : ℚ
  kin : ℚ
  name : String
deriving DecidableEq

/-- The Plant Configuration dict assembled by `sys_config` (the fields that
are serialized; commented-out fields of the source are omitted). -/
structure SystemConfiguration where
  latitude : ℚ
  longitude : ℚ
  tz : String
  altitude : ℚ
  surface_albedo : ℚ
  inverter : List (String × ℚ)
  ac_model : String
  module : List (String × PVal)
  bifacial : Bool
  bifaciality : ℚ
  row_height : ℚ
  row_width : ℚ
  with_tracker : Bool
  surface_azimuth : Option (List ℚ)
  surface_tilt : Option (List ℚ)
  axis_tilt : Option (List ℚ)
  axis_azimuth : Option (List ℚ)
  max_angle : Option (List ℚ)
  num_arrays : ℤ
  modules_per_string : List ℚ
  strings_per_inverter : List ℚ
  num_inverter : ℤ
  loss : ℚ
  kpc : ℚ
  kt : ℚ
  kin : ℚ
  name : String
deriving DecidableEq

/-- Embedding of `gui_config.sys_config`: copies the four status tuples and
the global widget scalars into the configuration record. -/
def sys_config (g : GlobalWidgets) (inverter_status : InverterStatus)
    (module_status : ModuleStatus) (mount_status : MountStatus)
    (econfig_status : EconfigStatus) : SystemConfiguration :=
  { latitude := g.latitude
    longitude := g.longitude
    tz := g.tz
    altitude := g.altitude
    surface_albedo := g.surface_albedo
    inverter := inverter_status.inverter
    ac_model := inverter_status.ac_model
    module := module_status.module
    bifacial := module_status.bifacial
    bifaciality := module_status.bifaciality
    row_height := module_status.row_height
    row_width := module_status.row_width
    with_tracker := mount_status.with_tracker
    surface_azimuth := mount_status.surface_azimuth
    surface_tilt := mount_status.surface_tilt
    axis_tilt := mount_status.axis_tilt
    axis_azimuth := mount_status.axis_azimuth
    max_angle := mount_status.max_angle
    num_arrays := g.num_arrays
    modules_per_string := econfig_status.modules_per_string
    strings_per_inverter := econfig_status.strings_per_inverter
    num_inverter := econfig_status.num_inverters
    loss := g.loss
    kpc := g.kpc
    kt := g.kt
    kin := g.kin
    name := g.name }

/-- The canonical key list shared by all six normalized module records. -/
def canonicalModuleKeys : List String :=
  ["T_NOCT", "Technology", "N_s", "I_sc_ref", "V_oc_ref", "I_mp_ref",
   "V_mp_ref", "alpha_sc", "beta_oc", "gamma_r", "STC"]

/-- The Sandia inverter key list. -/
def sandiaInvKeys : List String :=
  ["Paco", "Pdco", "Vdco", "Pso", "C0", "C1", "C2", "C3", "Pnt"]

/-- The PVWatts inverter key list. -/
def pvwattsInvKeys : List String :=
  ["Pdco", "eta_inv_nom"]

/-! ## Supporting lemmas -/

theorem mapOpt_length (f : α → Option β) (l : List α) :
    ∀ l', mapOpt f l = some l' → l'.length = l.length := by
  induction l with
  | nil =>
    intro l' h
    simp only [mapOpt, Option.some_inj] at h
    simp [← h]
  | cons a as ih =>
    intro l' h
    unfold mapOpt at h
    rcases hfa : f a with _ | b <;> rcases hmas : mapOpt f as with _ | bs <;>
        rw [hfa, hmas] at h <;> try exact Option.noConfusion h
    cases h
    simp [ih bs hmas]

theorem perArrayList_length {k : ℕ} {s : String} {l : List ℚ}
    (hk : (splitOnComma s.data []).length = k) (h : perArrayList k s = some l) :
    l.length = k := by
  unfold perArrayList at h
  split_ifs at h with h1 h2
  · obtain ⟨x, _, hxl⟩ := Option.map_eq_some'.mp h
    simp [← hxl, h1]
  · unfold str_to_list at h
    rw [← hk]
    exact mapOpt_length _ _ _ h

theorem perArrayListInt_length {k : ℕ} {s : String} {l : List ℚ}
    (hk : (splitOnComma s.data []).length = k) (h : perArrayListInt k s = some l) :
    l.length = k := by
  unfold perArrayListInt at h
  split_ifs at h with h1 h2
  · obtain ⟨x, _, hxl⟩ := Option.map_eq_some'.mp h
    simp [← hxl, h1]
  · unfold str_to_list at h
    rw [← hk]
    exact mapOpt_length _ _ _ h

theorem perArrayList_zero (s : String) : perArrayList 0 s = none := by
  simp [perArrayList]

theorem perArrayListInt_zero (s : String) : perArrayListInt 0 s = none := by
  simp [perArrayListInt]

theorem check_mount_eq_some {k : ℕ} {w : MountWidgets} {ms : MountStatus}
    (h : check_mount k w = some ms) :
    (w.tracker = false ∧
      ∃ st sa mt, perArrayList k w.c0 = some st ∧ perArrayList k w.c1 = some sa ∧
      moduleTypeOf w.c2 = some mt ∧
      ms = ⟨false, some sa, some st, none, none, none, mt, w.c2⟩) ∨
    (w.tracker = true ∧
      ∃ at1 aa ma mt, perArrayList k w.c0 = some at1 ∧
      perArrayList k w.c1 = some aa ∧ perArrayList k w.c2 = some ma ∧
      moduleTypeOf w.c3 = some mt ∧
      ms = ⟨true, none, none, some at1, some aa, some ma, mt, w.c3⟩) := by
  unfold check_mount at h
  split_ifs at h with htr
  · left
    refine ⟨htr, ?_⟩
    rcases h0 : perArrayList k w.c0 with _ | st <;> rw [h0] at h
    · exact Option.noConfusion h
    rcases h1 : perArrayList k w.c1 with _ | sa <;> rw [h1] at h
    · exact Option.noConfusion h
    rcases h2 : moduleTypeOf w.c2 with _ | mt <;> rw [h2] at h
    · exact Option.noConfusion h
    cases h
    exact ⟨st, sa, mt, rfl, rfl, rfl, rfl⟩
  · right
    refine ⟨by simpa using htr, ?_⟩
    rcases h0 : perArrayList k w.c0 with _ | at1 <;> rw [h0] at h
    · exact Option.noConfusion h
    rcases h1 : perArrayList k w.c1 with _ | aa <;> rw [h1] at h
    · exact Option.noConfusion h
    rcases h2 : perArrayList k w.c2 with _ | ma <;> rw [h2] at h
    · exact Option.noConfusion h
    rcases h3 : moduleTypeOf w.c3 with _ | mt <;> rw [h3] at h
    · exact Option.noConfusion h
    cases h
    exact ⟨at1, aa, ma, mt, rfl, rfl, rfl, rfl, rfl⟩

theorem check_econfig_eq_some {k : ℕ} {w : EconfigWidgets} {es : EconfigStatus}
    (h : check_econfig k w = some es) :
    ∃ m s, perArrayListInt k w.mps = some m ∧ perArrayListInt k w.spi = some s ∧
      es = ⟨m, s, w.numinv⟩ := by
  unfold check_econfig at h
  rcases h0 : perArrayListInt k w.mps with _ | m <;> rw [h0] at h
  · exact Option.noConfusion h
  rcases h1 : perArrayListInt k w.spi with _ | s <;> rw [h1] at h
  · exact Option.noConfusion h
  cases h
  exact ⟨m, s, rfl, rfl, rfl⟩

/-! ## Claims about the configuration assembly -/

/-- C1: every generated Plant Configuration populates exactly one mount-field
set: with `with_tracker = true` the fixed-mount fields `surface_tilt` and
`surface_azimuth` are null and `axis_tilt`, `axis_azimuth`, `max_angle` are
populated lists; with `with_tracker = false` the tracker fields are null and
`surface_tilt`, `surface_azimuth` are populated lists. -/
theorem config_mount_mode_invariant (k : ℕ) (w : MountWidgets)
    (g : GlobalWidgets) (inv : InverterStatus) (mo : ModuleStatus)
    (ec : EconfigStatus) (ms : MountStatus)
    (hm : check_mount k w = some ms) :
    ((sys_config g inv mo ms ec).with_tracker = true →
      (sys_config g inv mo ms ec).surface_tilt = none ∧
      (sys_config g inv mo ms ec).surface_azimuth = none ∧
      (sys_config g inv mo ms ec).axis_tilt.isSome = true ∧
      (sys_config g inv mo ms ec).axis_azimuth.isSome = true ∧
      (sys_config g inv mo ms ec).max_angle.isSome = true) ∧
    ((sys_config g inv mo ms ec).with_tracker = false →
      (sys_config g inv mo ms ec).axis_tilt = none ∧
      (sys_config g inv mo ms ec).axis_azimuth = none ∧
      (sys_config g inv mo ms ec).max_angle = none ∧
      (sys_config g inv mo ms ec).surface_tilt.isSome = true ∧
      (sys_config g inv mo ms ec).surface_azimuth.isSome = true) := by
  rcases check_mount_eq_some hm with ⟨_, st, sa, mt, _, _, _, rfl⟩ |
      ⟨_, at1, aa, ma, mt, _, _, _, _, rfl⟩ <;>
    simp [sys_config]

/-- C4: every inverter source selection produces a status tagged with an AC
model name, and the normalized record is one of exactly two schemas: the
`'sandia'` tag with the 9 coefficients `Paco, Pdco, Vdco, Pso, C0, C1, C2,
C3, Pnt`, or the `'pvwatts'` tag with the 2 fields `Pdco, eta_inv_nom`. -/
theorem check_inverter_two_schemas (sel : InverterSelection) :
    ((check_inverter sel).ac_model = "sandia" ∧
      (check_inverter sel).inverter.map Prod.fst = sandiaInvKeys) ∨
    ((check_inverter sel).ac_model = "pvwatts" ∧
      (check_inverter sel).inverter.map Prod.fst = pvwattsInvKeys) := by
  cases sel <;> first
    | exact Or.inl ⟨rfl, rfl⟩
    | exact Or.inr ⟨rfl, rfl⟩

/-- C9: with the subarray count 0 (the widget default) neither the
`num_arrays == 1` branch nor the `num_arrays > 1` branch assigns the
per-subarray lists, so `check_mount` and `check_econfig` fail (the
`UnboundLocalError` at the read, modelled as `none`) instead of returning a
result. -/
theorem zero_subarrays_fail (w : MountWidgets) (e : EconfigWidgets) :
    check_mount 0 w = none ∧ check_econfig 0 e = none := by
  constructor
  · cases h : check_mount 0 w with
    | none => rfl
    | some ms =>
      rcases check_mount_eq_some h with ⟨_, st, _, _, h0, _⟩ | ⟨_, at1, _, _, _, h0, _⟩ <;>
        rw [perArrayList_zero] at h0 <;> exact Option.noConfusion h0
  · cases h : check_econfig 0 e with
    | none => rfl
    | some es =>
      obtain ⟨m, s, h0, _⟩ := check_econfig_eq_some h
      rw [perArrayListInt_zero] at h0
      exact Option.noConfusion h0

/-- C2: technology normalization is total: every string in one of the known
synonym sets maps to its canonical tag, the canonical tags are exactly the 7
of `canonicalTechs`, and every string outside the synonym table maps to null
without raising. -/
theorem technology_normalization (s : String) :
    (s ∈ monoSyns → normTech s = some "monosi") ∧
    (s ∈ multiSyns → normTech s = some "multisi") ∧
    (s ∈ polySyns → normTech s = some "polisi") ∧
    (s ∈ cisSyns → normTech s = some "cis") ∧
    (s ∈ cigsSyns → normTech s = some "cigs") ∧
    (s ∈ cdteSyns → normTech s = some "cdte") ∧
    (s ∈ asiSyns → normTech s = some "asi") ∧
    (s ∉ monoSyns → s ∉ multiSyns → s ∉ polySyns → s ∉ cisSyns →
      s ∉ cigsSyns → s ∉ cdteSyns → s ∉ asiSyns → normTech s = none) ∧
    (∀ c, normTech s = some c → c ∈ canonicalTechs) := by
  refine ⟨?_, ?_, ?_, ?_, ?_, ?_, ?_, ?_, ?_⟩
  · intro h
    simp only [monoSyns, List.mem_cons, List.not_mem_nil, or_false] at h
    rcases h with rfl | rfl | rfl | rfl | rfl | rfl <;> decide
  · intro h
    simp only [multiSyns, List.mem_cons, List.not_mem_nil, or_false] at h
    rcases h with rfl | rfl | rfl | rfl | rfl <;> decide
  · intro h
    simp only [polySyns, List.mem_cons, List.not_mem_nil, or_false] at h
    rcases h with rfl | rfl | rfl <;> decide
  · intro h
    simp only [cisSyns, List.mem_cons, List.not_mem_nil, or_false] at h
    rcases h with rfl | rfl <;> decide
  · intro h
    simp only [cigsSyns, List.mem_cons, List.not_mem_nil, or_false] at h
    rcases h with rfl | rfl <;> decide
  · intro h
    simp only [cdteSyns, List.mem_cons, List.not_mem_nil, or_false] at h
    rcases h with rfl | rfl | rfl | rfl <;> decide
  · intro h
    simp only [asiSyns, List.mem_cons, List.not_mem_nil, or_false] at h
    rcases h with rfl | rfl | rfl | rfl | rfl | rfl | rfl <;> decide
  · intro h1 h2 h3 h4 h5 h6 h7
    simp only [normTech, if_neg h1, if_neg h2, if_neg h3, if_neg h4, if_neg h5,
      if_neg h6, if_neg h7]
  · intro c hc
    unfold normTech at hc
    split_ifs at hc <;>
      first
        | exact Option.noConfusion hc
        | (injection hc with h; subst h; decide)

/-- Witness for C2: a known synonym maps to its tag; an unknown string maps
to null. -/
theorem technology_normalization_witness :
    normTech "c-Si" = some "monosi" ∧ normTech "perovskite" = none := by
  constructor
  · exact (technology_normalization "c-Si").1 (by decide)
  · exact (technology_normalization "perovskite").2.2.2.2.2.2.2.1 (by decide)
      (by decide) (by decide) (by decide) (by decide) (by decide) (by decide)

/-- C3 (amended): every supported module source selection yields a
normalized record whose keys are exactly the 11 canonical fields
`T_NOCT, Technology, N_s, I_sc_ref, V_oc_ref, I_mp_ref, V_mp_ref, alpha_sc,
beta_oc, gamma_r, STC` (the temperature coefficients being three separate
fields), in that order, no more and no fewer. -/
theorem check_module_canonical_keys (sel : ModuleSelection) (b : BifacialWidgets) :
    (check_module sel b).module.map Prod.fst = canonicalModuleKeys ∧
    canonicalModuleKeys.length = 11 := by
  cases sel <;> exact ⟨rfl, rfl⟩

/-- A concrete CEC-style module record (values exact). -/
def cecExample : CECModRecord :=
  ⟨45, "Mono-c-Si", 60, 9, 40, 8, 33, 0, 0, 0, 300⟩

/-- Bifacial widgets with the bifacial toggle off. -/
def bifExample : BifacialWidgets := ⟨false, 0, 0, 0⟩

/-- Counterexample for C3 as stated: the normalized record of a concrete
manual module has 11 distinct fields, not exactly 10. -/
theorem check_module_keys_not_ten :
    ((check_module (.manual cecExample) bifExample).module.map Prod.fst).length ≠ 10 ∧
    ((check_module (.manual cecExample) bifExample).module.map Prod.fst).Nodup ∧
    ((check_module (.manual cecExample) bifExample).module.map Prod.fst).length = 11 := by
  exact ⟨by decide, by decide, by decide⟩

/-- C5: for subarray count `k`, every populated per-subarray list of
`check_mount` (tilt, azimuth, axis-tilt, axis-azimuth, max-rotation) and of
`check_econfig` (modules-per-string, strings-per-inverter) has length `k`:
with `k = 1` a bare parsed scalar gives a length-1 list, and with `k > 1` a
comma-delimited field with `k` entries gives a length-`k` list. -/
theorem per_subarray_list_lengths (k : ℕ) (w : MountWidgets)
    (e : EconfigWidgets) (ms : MountStatus) (es : EconfigStatus)
    (hm : check_mount k w = some ms) (he : check_econfig k e = some es)
    (h0 : (splitOnComma w.c0.data []).length = k)
    (h1 : (splitOnComma w.c1.data []).length = k)
    (h2 : w.tracker = true → (splitOnComma w.c2.data []).length = k)
    (hmps : (splitOnComma e.mps.data []).length = k)
    (hspi : (splitOnComma e.spi.data []).length = k) :
    (∀ l, ms.surface_tilt = some l → l.length = k) ∧
    (∀ l, ms.surface_azimuth = some l → l.length = k) ∧
    (∀ l, ms.axis_tilt = some l → l.length = k) ∧
    (∀ l, ms.axis_azimuth = some l → l.length = k) ∧
    (∀ l, ms.max_angle = some l → l.length = k) ∧
    es.modules_per_string.length = k ∧
    es.strings_per_inverter.length = k := by
  obtain ⟨m, s, hem, hes, rfl⟩ := check_econfig_eq_some he
  rcases check_mount_eq_some hm with ⟨_, st, sa, mt, hst, hsa, _, rfl⟩ |
      ⟨htr, at1, aa, ma, mt, hat, haa, hma, _, rfl⟩
  · refine ⟨?_, ?_, ?_, ?_, ?_, ?_, ?_⟩
    · intro l hl; cases hl; exact perArrayList_length h0 hst
    · intro l hl; cases hl; exact perArrayList_length h1 hsa
    · intro l hl; exact Option.noConfusion hl
    · intro l hl; exact Option.noConfusion hl
    · intro l hl; exact Option.noConfusion hl
    · exact perArrayListInt_length hmps hem
    · exact perArrayListInt_length hspi hes
  · refine ⟨?_, ?_, ?_, ?_, ?_, ?_, ?_⟩
    · intro l hl; exact Option.noConfusion hl
    · intro l hl; exact Option.noConfusion hl
    · intro l hl; cases hl; exact perArrayList_length h0 hat
    · intro l hl; cases hl; exact perArrayList_length h1 haa
    · intro l hl; cases hl; exact perArrayList_length (h2 htr) hma
    · exact perArrayListInt_length hmps hem
    · exact perArrayListInt_length hspi hes

/-- Fixed-mount widgets for two subarrays. -/
def mountFixedExample : MountWidgets := ⟨false, "10, 20", "90, 180", "open_rack", ""⟩

/-- The mount status `check_mount 2 mountFixedExample` produces. -/
def mountFixedStatusExample : MountStatus :=
  ⟨false, some [90, 180], some [10, 20], none, none, none, "glass_glass", "open_rack"⟩

/-- Electrical-configuration widgets for two subarrays. -/
def econfigExample : EconfigWidgets := ⟨"2, 2", "3, 3", 1⟩

/-- The status `check_econfig 2 econfigExample` produces. -/
def econfigStatusExample : EconfigStatus := ⟨[2, 2], [3, 3], 1⟩

/-- Witness for C5 at `k = 2` with concrete comma-delimited fields. -/
theorem per_subarray_list_lengths_witness :
    check_mount 2 mountFixedExample = some mountFixedStatusExample ∧
    check_econfig 2 econfigExample = some econfigStatusExample ∧
    ((∀ l, mountFixedStatusExample.surface_tilt = some l → l.length = 2) ∧
     (∀ l, mountFixedStatusExample.surface_azimuth = some l → l.length = 2) ∧
     (∀ l, mountFixedStatusExample.axis_tilt = some l → l.length = 2) ∧
     (∀ l, mountFixedStatusExample.axis_azimuth = some l → l.length = 2) ∧
     (∀ l, mountFixedStatusExample.max_angle = some l → l.length = 2) ∧
     econfigStatusExample.modules_per_string.length = 2 ∧
     econfigStatusExample.strings_per_inverter.length = 2) :=
  ⟨by decide, by decide,
   per_subarray_list_lengths 2 mountFixedExample econfigExample
     mountFixedStatusExample econfigStatusExample (by decide) (by decide)
     (by decide) (by decide) (by decide) (by decide) (by decide)⟩

/-- Tracker-mode widgets for one subarray. -/
def mountTrackerExample : MountWidgets := ⟨true, "0", "180", "45", "open_rack"⟩

/-- The mount status `check_mount 1 mountTrackerExample` produces. -/
def mountTrackerStatusExample : MountStatus :=
  ⟨true, none, none, some [0], some [180], some [45], "glass_glass", "open_rack"⟩

/-- Concrete global widget scalars. -/
def globalExample : GlobalWidgets :=
  ⟨4, 74, "America/Bogota", 2550, 0, 1, 0, 0, 0, 0, "plant"⟩

/-- A concrete inverter status (PVsyst source). -/
def inverterStatusExample : InverterStatus :=
  check_inverter (.pvsystFile ⟨3000, 0⟩)

/-- A concrete module status (manual source). -/
def moduleStatusExample : ModuleStatus :=
  check_module (.manual cecExample) bifExample

/-- A concrete generated Plant Configuration in tracker mode. -/
def configExample : SystemConfiguration :=
  sys_config globalExample inverterStatusExample moduleStatusExample
    mountTrackerStatusExample econfigStatusExample

/-- Witness for C1: a tracker-mode configuration generated from concrete
widgets nulls the fixed-mount fields and populates the tracker fields. -/
theorem config_mount_mode_invariant_witness :
    check_mount 1 mountTrackerExample = some mountTrackerStatusExample ∧
    ((configExample.with_tracker = true →
        configExample.surface_tilt = none ∧
        configExample.surface_azimuth = none ∧
        configExample.axis_tilt.isSome = true ∧
        configExample.axis_azimuth.isSome = true ∧
        configExample.max_angle.isSome = true) ∧
     (configExample.with_tracker = false →
        configExample.axis_tilt = none ∧
        configExample.axis_azimuth = none ∧
        configExample.max_angle = none ∧
        configExample.surface_tilt.isSome = true ∧
        configExample.surface_azimuth.isSome = true)) :=
  ⟨by decide,
   config_mount_mode_invariant 1 mountTrackerExample globalExample
     inverterStatusExample moduleStatusExample econfigStatusExample
     mountTrackerStatusExample (by decide)⟩

/-! ## Supporting lemmas for the CEN statistic -/

theorem le_foldl_max (as : List ℚ) : ∀ b : ℚ, b ≤ as.foldl max b := by
  induction as with
  | nil => intro b; simp
  | cons a as ih =>
    intro b
    rw [List.foldl_cons]
    exact le_trans (le_max_left b a) (ih (max b a))

theorem mem_le_foldl_max {x : ℚ} (as : List ℚ) :
    ∀ b : ℚ, x ∈ as → x ≤ as.foldl max b := by
  induction as with
  | nil => intro b hx; exact absurd hx (List.not_mem_nil x)
  | cons a as ih =>
    intro b hx
    rw [List.foldl_cons]
    rcases List.mem_cons.mp hx with rfl | hx'
    · exact le_trans (le_max_right b x) (le_foldl_max as (max b x))
    · exact ih (max b a) hx'

theorem le_npMax {ac : List ℚ} {m x : ℚ} (hm : npMax ac = some m)
    (hx : x ∈ ac) : x ≤ m := by
  cases ac with
  | nil => exact absurd hx (List.not_mem_nil x)
  | cons a as =>
    cases hm
    rcases List.mem_cons.mp hx with rfl | hx'
    · exact le_foldl_max as x
    · exact mem_le_foldl_max as a hx'

theorem roundHalfEven_mono {x y : ℚ} (hxy : x ≤ y) :
    roundHalfEven x ≤ roundHalfEven y := by
  have hf : ⌊x⌋ ≤ ⌊y⌋ := Int.floor_le_floor hxy
  unfold roundHalfEven
  rcases lt_or_eq_of_le hf with hlt | heq
  · split_ifs <;> omega
  · have hr : x - (⌊y⌋ : ℚ) ≤ y - (⌊y⌋ : ℚ) := by linarith
    rw [heq]
    split_ifs <;> first | omega | linarith

theorem npRound_mono {x y : ℚ} (d : ℤ) (hxy : x ≤ y) :
    npRound x d ≤ npRound y d := by
  unfold npRound
  have hpow : (0 : ℚ) < (10 : ℚ) ^ d := zpow_pos (by norm_num) d
  have h1 : roundHalfEven (x * 10 ^ d) ≤ roundHalfEven (y * 10 ^ d) :=
    roundHalfEven_mono (mul_le_mul_of_nonneg_right hxy hpow.le)
  have h2 : ((roundHalfEven (x * 10 ^ d) : ℚ)) ≤ (roundHalfEven (y * 10 ^ d) : ℚ) := by
    exact_mod_cast h1
  exact (div_le_div_iff_of_pos_right hpow).mpr h2

theorem interp_le_max (xs : List ℚ) (m H : ℚ) (hmem : ∀ b ∈ xs, b ≤ m)
    (hH0 : 0 ≤ H) (hHle : H ≤ (xs.length : ℚ) - 1) (hxs : xs ≠ []) :
    xs.getD ⌊H⌋.toNat 0
      + (H - (⌊H⌋ : ℚ)) * (xs.getD (⌊H⌋.toNat + 1) 0 - xs.getD ⌊H⌋.toNat 0) ≤ m := by
  have h3 : 0 ≤ ⌊H⌋ := Int.floor_nonneg.mpr hH0
  have h4 : 0 < xs.length := List.length_pos.mpr hxs
  have h1 : (⌊H⌋ : ℚ) ≤ (xs.length : ℚ) - 1 := le_trans (Int.floor_le H) hHle
  have h2 : ⌊H⌋ ≤ (xs.length : ℤ) - 1 := by exact_mod_cast h1
  have hjlt : ⌊H⌋.toNat < xs.length := by omega
  have hxj : xs.getD ⌊H⌋.toNat 0 ≤ m := by
    rw [List.getD_eq_getElem _ _ hjlt]
    exact hmem _ (List.getElem_mem _)
  have hg0 : 0 ≤ H - (⌊H⌋ : ℚ) := by linarith [Int.floor_le H]
  have hg1 : H - (⌊H⌋ : ℚ) ≤ 1 := by linarith [Int.lt_floor_add_one H]
  rcases Nat.lt_or_ge (⌊H⌋.toNat + 1) xs.length with hlt | hge
  · have hxj1 : xs.getD (⌊H⌋.toNat + 1) 0 ≤ m := by
      rw [List.getD_eq_getElem _ _ hlt]
      exact hmem _ (List.getElem_mem _)
    have k1 : 0 ≤ (1 - (H - (⌊H⌋ : ℚ))) * (m - xs.getD ⌊H⌋.toNat 0) :=
      mul_nonneg (by linarith) (by linarith)
    have k2 : 0 ≤ (H - (⌊H⌋ : ℚ)) * (m - xs.getD (⌊H⌋.toNat + 1) 0) :=
      mul_nonneg hg0 (by linarith)
    nlinarith [k1, k2]
  · have h6 : ⌊H⌋ = (xs.length : ℤ) - 1 := by omega
    have h7 : ((xs.length : ℚ) - 1) = (⌊H⌋ : ℚ) := by
      rw [h6]
      push_cast
      ring
    have hHeq : H = (⌊H⌋ : ℚ) := le_antisymm (h7 ▸ hHle) (Int.floor_le H)
    have hgeq : H - (⌊H⌋ : ℚ) = 0 := by rw [sub_eq_zero]; exact hHeq
    rw [hgeq, zero_mul, add_zero]
    exact hxj

theorem percentileLinear_le_max {ac : List ℚ} {m : ℚ} (q : ℚ)
    (h0 : 0 ≤ q) (h1 : q ≤ 100) (hm : npMax ac = some m) :
    percentileLinear ac q ≤ m := by
  have hne : ac ≠ [] := by rintro rfl; exact Option.noConfusion hm
  have hlen : 1 ≤ ac.length := List.length_pos.mpr hne
  have hsortlen : (npSort ac).length = ac.length := by simp [npSort]
  have hsortne : npSort ac ≠ [] := by
    intro hnil
    rw [hnil] at hsortlen
    exact hne (List.length_eq_zero.mp hsortlen.symm)
  have hmem : ∀ b ∈ npSort ac, b ≤ m := by
    intro b hb
    simp only [npSort, List.mem_insertionSort] at hb
    exact le_npMax hm hb
  have hone : (1 : ℚ) ≤ (ac.length : ℚ) := by exact_mod_cast hlen
  have hH0 : 0 ≤ ((ac.length : ℚ) - 1) * q / 100 := by
    apply div_nonneg _ (by norm_num)
    exact mul_nonneg (by linarith) h0
  have hHle : ((ac.length : ℚ) - 1) * q / 100 ≤ ((npSort ac).length : ℚ) - 1 := by
    rw [hsortlen]
    calc ((ac.length : ℚ) - 1) * q / 100 = ((ac.length : ℚ) - 1) * (q / 100) := by
          ring
      _ ≤ ((ac.length : ℚ) - 1) * 1 :=
          mul_le_mul_of_nonneg_left (by linarith) (by linarith)
      _ = (ac.length : ℚ) - 1 := mul_one _
  exact interp_le_max (npSort ac) m (((ac.length : ℚ) - 1) * q / 100)
    hmem hH0 hHle hsortne

theorem cenProbs_length (ac : List ℚ) : (cenProbs ac).length = ac.length := by
  unfold cenProbs
  rw [List.length_map, List.length_range]

theorem cenProbs_getD (ac : List ℚ) (i : ℕ) (hi : i < ac.length)
    (hne : ((ac.length : ℚ) - 1) ≠ 0) :
    (cenProbs ac).getD i none = some ((i : ℚ) / ((ac.length : ℚ) - 1)) := by
  rw [List.getD_eq_getElem _ _ (by rw [cenProbs_length]; exact hi)]
  unfold cenProbs
  simp only [List.getElem_map, List.getElem_range]
  rw [if_neg hne]

/-! ## Claims about the CEN statistic -/

/-- C6: for the AC sample set `[1, 2, 3, 4, 5]` (watts) with `perc = 50`
and `decimals = 6`, `get_cen` returns the 50th-percentile value `3e-6` MW
(the median) and the maximum `5e-6` MW: the pair `(3e-6, 5e-6)`. -/
theorem get_cen_sample_values :
    get_cen [1, 2, 3, 4, 5] 50 6 = some (3e-6, 5e-6) := by
  have hs : npSort [1, 2, 3, 4, 5] = [1, 2, 3, 4, 5] := by decide
  have hp : percentileLinear [1, 2, 3, 4, 5] 50 = 3 := by
    unfold percentileLinear
    rw [hs]
    norm_num
    decide
  have hm : npMax [1, 2, 3, 4, 5] = some 5 := by decide
  rw [get_cen, hm, hp]
  norm_num [units_MW, npRound, roundHalfEven, Rat.ofScientific_def]

/-- C7: for `n ≥ 2` samples, `get_cen` sorts ascending and pairs the i-th
sorted sample with the cumulative probability `i / (n - 1)` (so rank 0 gets
0.0 and the last rank gets 1.0), and the reported percentile value comes
from the standard linear percentile interpolation over the samples. -/
theorem cen_probs_rank_formula (ac : List ℚ) (h : 2 ≤ ac.length) :
    (cenProbs ac).length = (npSort ac).length ∧
    List.Sorted (· ≤ ·) (npSort ac) ∧
    (npSort ac).Perm ac ∧
    (∀ i, i < ac.length →
      (cenProbs ac).getD i none = some ((i : ℚ) / ((ac.length : ℚ) - 1))) ∧
    (cenProbs ac).getD 0 none = some 0 ∧
    (cenProbs ac).getD (ac.length - 1) none = some 1 ∧
    (∀ perc d cp cm, get_cen ac perc d = some (cp, cm) →
      cp = npRound (percentileLinear ac perc / units_MW) d) := by
  have h2 : (2 : ℚ) ≤ (ac.length : ℚ) := by exact_mod_cast h
  have hne : ((ac.length : ℚ) - 1) ≠ 0 := by intro heq; linarith
  refine ⟨?_, List.sorted_insertionSort _ _,
    List.perm_insertionSort _ _, ?_, ?_, ?_, ?_⟩
  · rw [cenProbs_length]
    unfold npSort
    rw [List.length_insertionSort]
  · intro i hi
    exact cenProbs_getD ac i hi hne
  · have h0 : 0 < ac.length := by omega
    rw [cenProbs_getD ac 0 h0 hne]
    norm_num
  · have hl : ac.length - 1 < ac.length := by omega
    rw [cenProbs_getD ac (ac.length - 1) hl hne]
    have h1 : 1 ≤ ac.length := by omega
    rw [Nat.cast_sub h1, Nat.cast_one, div_self hne]
  · intro perc d cp cm hg
    unfold get_cen at hg
    split_ifs at hg
    obtain ⟨m, hmax, heq⟩ := Option.map_eq_some'.mp hg
    cases heq
    rfl

/-- Witness for C7 at the two-sample input `[1, 2]`. -/
theorem cen_probs_rank_formula_witness :
    (cenProbs [(1 : ℚ), 2]).length = (npSort [(1 : ℚ), 2]).length ∧
    List.Sorted (· ≤ ·) (npSort [(1 : ℚ), 2]) ∧
    (npSort [(1 : ℚ), 2]).Perm [(1 : ℚ), 2] ∧
    (∀ i, i < ([(1 : ℚ), 2] : List ℚ).length →
      (cenProbs [(1 : ℚ), 2]).getD i none =
        some ((i : ℚ) / ((([(1 : ℚ), 2] : List ℚ).length : ℚ) - 1))) ∧
    (cenProbs [(1 : ℚ), 2]).getD 0 none = some 0 ∧
    (cenProbs [(1 : ℚ), 2]).getD (([(1 : ℚ), 2] : List ℚ).length - 1) none = some 1 ∧
    (∀ perc d cp cm, get_cen [(1 : ℚ), 2] perc d = some (cp, cm) →
      cp = npRound (percentileLinear [(1 : ℚ), 2] perc / units_MW) d) :=
  cen_probs_rank_formula [1, 2] (by decide)

/-- C8 (amended): on a single-sample input the rank formula
`rank / (n - 1)` does divide by zero, but as NumPy array division this
produces a NaN probability entry together with a runtime warning rather
than an arithmetic failure: `get_cen` still returns the defined pair of the
rounded percentile and maximum, both equal to the sample rescaled to MW. -/
theorem get_cen_single_sample (x perc : ℚ) (d : ℤ)
    (h0 : 0 ≤ perc) (h1 : perc ≤ 100) :
    cenProbs [x] = [none] ∧
    get_cen [x] perc d =
      some (npRound (x / units_MW) d, npRound (x / units_MW) d) := by
  constructor
  · unfold cenProbs
    rw [show List.range (List.length [x]) = [0] from rfl]
    norm_num
  · have hp : percentileLinear [x] perc = x := by
      unfold percentileLinear
      norm_num [npSort, List.insertionSort, List.orderedInsert]
    have hm : npMax [x] = some x := rfl
    rw [get_cen, if_neg (by rintro (hc | hc) <;> linarith), hm, hp]
    rfl

/-- Witness for C8 at `x = 1000000`, `perc = 50`, `d = 6`. -/
theorem get_cen_single_sample_witness :
    (0 : ℚ) ≤ 50 ∧ (50 : ℚ) ≤ 100 ∧
    (cenProbs [(1000000 : ℚ)] = [none] ∧
     get_cen [(1000000 : ℚ)] 50 6 =
       some (npRound ((1000000 : ℚ) / units_MW) 6,
             npRound ((1000000 : ℚ) / units_MW) 6)) :=
  ⟨by norm_num, by norm_num,
   get_cen_single_sample 1000000 50 6 (by norm_num) (by norm_num)⟩

/-- Counterexample for C8 as stated: the single-sample call
`get_cen([1000000], 50, 6)` returns the defined pair `(1, 1)` MW instead of
failing with an arithmetic error. -/
theorem get_cen_single_sample_returns :
    get_cen [(1000000 : ℚ)] 50 6 = some (1, 1) := by
  have hp : percentileLinear [(1000000 : ℚ)] 50 = 1000000 := by
    unfold percentileLinear
    norm_num [npSort, List.insertionSort, List.orderedInsert]
  have hm : npMax [(1000000 : ℚ)] = some 1000000 := rfl
  rw [get_cen, hm, hp]
  norm_num [units_MW, npRound, roundHalfEven]

/-- C10: for every non-empty sample set, percentile in `[0, 100]` and
rounding precision, the returned percentile value never exceeds the
returned maximum: `cen_per ≤ cen_pmax`. -/
theorem cen_per_le_pmax (ac : List ℚ) (perc : ℚ) (d : ℤ) (cp cm : ℚ)
    (hne : ac ≠ []) (h0 : 0 ≤ perc) (h1 : perc ≤ 100)
    (h : get_cen ac perc d = some (cp, cm)) : cp ≤ cm := by
  unfold get_cen at h
  split_ifs at h
  obtain ⟨m, hmax, heq⟩ := Option.map_eq_some'.mp h
  cases heq
  apply npRound_mono
  have hple : percentileLinear ac perc ≤ m :=
    percentileLinear_le_max perc h0 h1 hmax
  have hu : (0 : ℚ) < units_MW := by norm_num [units_MW]
  exact (div_le_div_iff_of_pos_right hu).mpr hple

/-- Witness for C10 at `[1, 2]`, `perc = 50`, `d = 6` (interpolated median
`1.5` W rounds half-to-even to `2e-6` MW; the maximum is `2e-6` MW). -/
theorem cen_per_le_pmax_witness :
    get_cen [(1 : ℚ), 2] 50 6 = some (2 / 1000000, 2 / 1000000) ∧
    (2 / 1000000 : ℚ) ≤ 2 / 1000000 := by
  have hg : get_cen [(1 : ℚ), 2] 50 6 = some (2 / 1000000, 2 / 1000000) := by
    have hs : npSort [(1 : ℚ), 2] = [1, 2] := by decide
    have hp : percentileLinear [(1 : ℚ), 2] 50 = 3 / 2 := by
      unfold percentileLinear
      rw [hs]
      norm_num
      try decide
    have hm : npMax [(1 : ℚ), 2] = some 2 := by decide
    rw [get_cen, hm, hp]
    norm_num [units_MW, npRound, roundHalfEven]
  exact ⟨hg, cen_per_le_pmax [1, 2] 50 6 (2 / 1000000) (2 / 1000000)
    (by decide) (by norm_num) (by norm_num) hg⟩

end CnoSolar
